import Mathlib

/-!
Shallow embedding of `src/Ecommerce.py`, a small in-memory e-commerce
record keeper (customers, products, orders assembled against live stock,
totals over exact decimal prices), together with theorems checking the
natural-language specification against it.

Modelling choices:
* Python `Decimal` prices are modelled as exact rationals (`Rat`); the
  program only multiplies a price by an integer quantity and sums the
  results, which is exact decimal arithmetic.
* Python `int` is modelled as `Int` (unbounded).
* Python `dict` (insertion ordered, assignment replaces the value of an
  existing key in place, otherwise appends) is modelled as an association
  list with `dictGet` / `dictInsert`.
* `raise ValueError` in a constructor is modelled by the constructor
  returning `Except String _`; an exception that no caller catches is
  modelled as the absence of a successor state (`Option.none`) in the
  CLI step function.
* The interactive loop of `Menu.criar_pedido` consumes a list of input
  events: either the sentinel `fim` or a product name together with the
  result of parsing the quantity line (`none` models an `int()` parse
  failure, i.e. a `ValueError`).
-/

namespace Ecommerce

/-- `Pessoa` from `Ecommerce.py`: name, tax id (cpf), email. -/
structure Pessoa where
  nome : String
  cpf : String
  email : String
deriving Repr, DecidableEq

/-- `Cliente`: a `Pessoa` plus a generated unique id (`str(uuid.uuid4())`),
modelled as a string produced from a fresh counter. -/
structure Cliente where
  pessoa : Pessoa
  id_cliente : String
deriving Repr, DecidableEq

/-- `Produto`: name, price (`Decimal`, modelled as `Rat`), stock (`int`). -/
structure Produto where
  nome : String
  preco : Rat
  estoque : Int
deriving Repr, DecidableEq

/-- `Produto.__init__`: raises `ValueError` when `preco < 0 or estoque < 0`,
otherwise stores the attributes unchanged. -/
def Produto.mk? (nome : String) (preco : Rat) (estoque : Int) :
    Except String Produto :=
  if preco < 0 ∨ estoque < 0 then
    Except.error "Preço e estoque devem ser não-negativos."
  else
    Except.ok ⟨nome, preco, estoque⟩

/-- `ItemPedido`: holds a reference to a `Produto` plus a quantity.  The
product's `nome` and `preco` are immutable after construction in the
source (only `estoque` is ever mutated), so the reference is modelled by
snapshotting those two fields. -/
structure ItemPedido where
  produtoNome : String
  produtoPreco : Rat
  quantidade : Int
deriving Repr, DecidableEq

/-- `ItemPedido.__init__`: raises `ValueError` when `quantidade <= 0`. -/
def ItemPedido.mk? (produto : Produto) (quantidade : Int) :
    Except String ItemPedido :=
  if quantidade ≤ 0 then
    Except.error "Quantidade deve ser maior que zero."
  else
    Except.ok ⟨produto.nome, produto.preco, quantidade⟩

/-- `ItemPedido.calcular_total`: `produto.preco * Decimal(quantidade)`. -/
def ItemPedido.calcular_total (item : ItemPedido) : Rat :=
  item.produtoPreco * (item.quantidade : Rat)

/-- `Pedido`: a `Cliente` plus the ordered list of `ItemPedido`. -/
structure Pedido where
  cliente : Cliente
  itens : List ItemPedido
deriving Repr, DecidableEq

/-- `Pedido.adicionar_item`: constructs an `ItemPedido` (which may raise)
and appends it to `itens`. -/
def Pedido.adicionar_item (pedido : Pedido) (produto : Produto)
    (quantidade : Int) : Except String Pedido :=
  (ItemPedido.mk? produto quantidade).map fun item =>
    ⟨pedido.cliente, pedido.itens ++ [item]⟩

/-- `Pedido.calcular_total`: `sum(item.calcular_total() for item in self.itens)`. -/
def Pedido.calcular_total (pedido : Pedido) : Rat :=
  (pedido.itens.map ItemPedido.calcular_total).sum

/-- Python `dict.get`: value of the first (unique) entry with the given
key, `none` when absent. -/
def dictGet {α : Type} : List (String × α) → String → Option α
  | [], _ => none
  | e :: rest, k => if e.1 == k then some e.2 else dictGet rest k

/-- Python `d[k] = v`: replace the value of an existing key in place
(keeping its position), otherwise append the new entry at the end. -/
def dictInsert {α : Type} : List (String × α) → String → α → List (String × α)
  | [], k, v => [(k, v)]
  | e :: rest, k, v =>
    if e.1 == k then (k, v) :: rest else e :: dictInsert rest k v

/-- `Menu`'s in-memory state: customers keyed by cpf, products keyed by
name, the append-only order list, and a counter modelling uuid
generation. -/
structure Menu where
  clientes : List (String × Cliente)
  produtos : List (String × Produto)
  pedidos : List Pedido
  nextId : Nat
deriving Repr, DecidableEq

/-- `Menu.__init__`: empty collections. -/
def Menu.init : Menu := ⟨[], [], [], 0⟩

/-- `Menu.cadastrar_cliente`: build `Pessoa` and `Cliente`, store under
the cpf key (overwriting any previous customer with that cpf). -/
def Menu.cadastrar_cliente (m : Menu) (nome cpf email : String) : Menu :=
  let pessoa : Pessoa := ⟨nome, cpf, email⟩
  let cliente : Cliente := ⟨pessoa, toString m.nextId⟩
  ⟨dictInsert m.clientes cpf cliente, m.produtos, m.pedidos, m.nextId + 1⟩

/-- `Menu.cadastrar_produto`: construct the `Produto` (which raises on a
negative price or stock — nothing is stored in that case) and store it
under its name. -/
def Menu.cadastrar_produto (m : Menu) (nome : String) (preco : Rat)
    (estoque : Int) : Except String Menu :=
  (Produto.mk? nome preco estoque).map fun produto =>
    ⟨m.clientes, dictInsert m.produtos nome produto, m.pedidos, m.nextId⟩

/-- One input event of the `Menu.criar_pedido` loop: the sentinel `fim`,
or a product-name line together with the parsed quantity line (`none`
when `int()` raises `ValueError` on it). -/
inductive PedidoInput where
  | fim
  | item (nomeProduto : String) (quantidade : Option Int)
deriving Repr, DecidableEq

/-- Which message one loop iteration of `Menu.criar_pedido` prints. -/
inductive AddResult where
  | produtoNaoEncontrado
  | quantidadeInvalida
  | estoqueInsuficiente
  | ok
deriving Repr, DecidableEq

/-- One non-sentinel iteration of the `Menu.criar_pedido` loop: look the
product up; on a quantity parse failure or a `ValueError` from
`ItemPedido` print "Quantidade inválida"; when the quantity exceeds the
stock print "Estoque insuficiente"; otherwise append the item and then
decrement the product's stock in place. -/
def criar_pedido_step (produtos : List (String × Produto)) (pedido : Pedido)
    (nomeProduto : String) (quantidadeInput : Option Int) :
    List (String × Produto) × Pedido × AddResult :=
  match dictGet produtos nomeProduto with
  | none => (produtos, pedido, AddResult.produtoNaoEncontrado)
  | some produto =>
    match quantidadeInput with
    | none => (produtos, pedido, AddResult.quantidadeInvalida)
    | some quantidade =>
      if quantidade > produto.estoque then
        (produtos, pedido, AddResult.estoqueInsuficiente)
      else
        match pedido.adicionar_item produto quantidade with
        | Except.error _ => (produtos, pedido, AddResult.quantidadeInvalida)
        | Except.ok pedido2 =>
          (dictInsert produtos nomeProduto
            ⟨produto.nome, produto.preco, produto.estoque - quantidade⟩,
           pedido2, AddResult.ok)

/-- The `while True` loop of `Menu.criar_pedido` over the input events:
stops (returning the mutated product map and the assembled order) at the
sentinel `fim`; if the input stream runs out, `input()` raises an
uncaught `EOFError` and the process dies (`none`). -/
def criar_pedido_loop : List PedidoInput → List (String × Produto) → Pedido →
    Option (List (String × Produto) × Pedido)
  | [], _, _ => none
  | PedidoInput.fim :: _, produtos, pedido => some (produtos, pedido)
  | PedidoInput.item nome q :: rest, produtos, pedido =>
    let r := criar_pedido_step produtos pedido nome q
    criar_pedido_loop rest r.1 r.2.1

/-- Outcome of `Menu.criar_pedido`: the customer was not found (state
returned unchanged), or the order was finalized (printing its total and
appending it), or the process died on exhausted input. -/
inductive CriarPedidoResult where
  | clienteNaoEncontrado (m : Menu)
  | finalizado (m : Menu) (total : Rat)
  | crash
deriving Repr, DecidableEq

/-- `Menu.criar_pedido`: look the customer up (print "Cliente não
encontrado." and return when absent), start `Pedido(cliente)` with no
items, run the item loop, then compute the total and append the order to
`pedidos`. -/
def Menu.criar_pedido (m : Menu) (cpf : String) (inputs : List PedidoInput) :
    CriarPedidoResult :=
  match dictGet m.clientes cpf with
  | none => CriarPedidoResult.clienteNaoEncontrado m
  | some cliente =>
    match criar_pedido_loop inputs m.produtos ⟨cliente, []⟩ with
    | none => CriarPedidoResult.crash
    | some (produtos2, pedido2) =>
      CriarPedidoResult.finalizado
        ⟨m.clientes, produtos2, m.pedidos ++ [pedido2], m.nextId⟩
        pedido2.calcular_total

/-- `Menu.listar_pedidos`: for each recorded order, in list order, the
customer name, each line's product name, quantity and subtotal, and the
order total — exactly the data the source prints. -/
def Menu.listar_pedidos (m : Menu) :
    List (String × List (String × Int × Rat) × Rat) :=
  m.pedidos.map fun pedido =>
    (pedido.cliente.pessoa.nome,
     pedido.itens.map fun item =>
       (item.produtoNome, item.quantidade, item.calcular_total),
     pedido.calcular_total)

/-- Menu option `2` of `Menu.exibir_menu`: `Decimal(input())` and
`int(input())` are called with no surrounding `try`, as is
`cadastrar_produto`; a parse failure or a `ValueError` from the
`Produto` constructor is uncaught and kills the process (`none`).
The `Option` arguments are the parse results of the two numeric lines. -/
def menu_option2 (m : Menu) (nome : String) (precoInput : Option Rat)
    (estoqueInput : Option Int) : Option Menu :=
  match precoInput with
  | none => none
  | some preco =>
    match estoqueInput with
    | none => none
    | some estoque => (m.cadastrar_produto nome preco estoque).toOption

/-- One user interaction of the `Menu.exibir_menu` loop. -/
inductive Op where
  | cadastrarCliente (nome cpf email : String)
  | cadastrarProduto (nome : String) (precoInput : Option Rat)
      (estoqueInput : Option Int)
  | criarPedido (cpf : String) (inputs : List PedidoInput)
  | listarPedidos

/-- One iteration of `Menu.exibir_menu`: `none` means the process died
on an uncaught exception. -/
def Menu.step (m : Menu) : Op → Option Menu
  | Op.cadastrarCliente nome cpf email => some (m.cadastrar_cliente nome cpf email)
  | Op.cadastrarProduto nome p s => menu_option2 m nome p s
  | Op.criarPedido cpf inputs =>
    match m.criar_pedido cpf inputs with
    | CriarPedidoResult.clienteNaoEncontrado m2 => some m2
    | CriarPedidoResult.finalizado m2 _ => some m2
    | CriarPedidoResult.crash => none
  | Op.listarPedidos => some m

/-- Menu states reachable from the initial state by surviving
interactions. -/
inductive Reachable : Menu → Prop
  | init : Reachable Menu.init
  | step {m m' : Menu} {op : Op} : Reachable m → m.step op = some m' →
      Reachable m'

/-- Every stored product has a non-negative price and stock. -/
def produtosOk (produtos : List (String × Produto)) : Prop :=
  ∀ e ∈ produtos, 0 ≤ e.2.preco ∧ 0 ≤ e.2.estoque

/-- The product invariant, read off a whole menu state. -/
def Menu.ProdutosValidos (m : Menu) : Prop :=
  produtosOk m.produtos

/-! ### Association-list (Python dict) lemmas -/

lemma dictGet_dictInsert_self {α : Type} (d : List (String × α)) (k : String)
    (v : α) : dictGet (dictInsert d k v) k = some v := by
  induction d with
  | nil => simp [dictGet, dictInsert]
  | cons e rest ih =>
    by_cases h : e.1 = k
    · simp [dictGet, dictInsert, h]
    · simp [dictGet, dictInsert, h, ih]

lemma mem_dictInsert {α : Type} {d : List (String × α)} {k : String} {v : α}
    {e : String × α} (h : e ∈ dictInsert d k v) : e = (k, v) ∨ e ∈ d := by
  induction d with
  | nil =>
    simp [dictInsert] at h
    exact Or.inl h
  | cons f rest ih =>
    by_cases hf : f.1 = k
    · simp only [dictInsert, hf] at h
      rw [if_pos (by simp [hf])] at h
      rcases List.mem_cons.mp h with h | h
      · exact Or.inl h
      · exact Or.inr (List.mem_cons_of_mem _ h)
    · simp only [dictInsert] at h
      rw [if_neg (by simp [hf])] at h
      rcases List.mem_cons.mp h with h | h
      · exact Or.inr (h ▸ List.mem_cons_self _ _)
      · rcases ih h with h | h
        · exact Or.inl h
        · exact Or.inr (List.mem_cons_of_mem _ h)

lemma dictGet_mem {α : Type} {d : List (String × α)} {k : String} {v : α}
    (h : dictGet d k = some v) : (k, v) ∈ d := by
  induction d with
  | nil => simp [dictGet] at h
  | cons e rest ih =>
    by_cases he : e.1 = k
    · simp only [dictGet] at h
      rw [if_pos (by simp [he])] at h
      have hv : e.2 = v := by injection h
      have : (k, v) = e := by
        cases e with
        | mk a b => simp_all
      exact this ▸ List.mem_cons_self _ _
    · simp only [dictGet] at h
      rw [if_neg (by simp [he])] at h
      exact List.mem_cons_of_mem _ (ih h)

/-! ### `adicionar_item` and one loop iteration of `criar_pedido` -/

lemma adicionar_item_ok {pedido : Pedido} {produto : Produto} {q : Int}
    (hpos : 0 < q) :
    pedido.adicionar_item produto q =
      Except.ok ⟨pedido.cliente, pedido.itens ++ [⟨produto.nome, produto.preco, q⟩]⟩ := by
  simp [Pedido.adicionar_item, ItemPedido.mk?, not_le.mpr hpos, Except.map]

lemma adicionar_item_err {pedido : Pedido} {produto : Produto} {q : Int}
    (hq : q ≤ 0) :
    pedido.adicionar_item produto q =
      Except.error "Quantidade deve ser maior que zero." := by
  simp [Pedido.adicionar_item, ItemPedido.mk?, hq, Except.map]

lemma criar_pedido_step_notfound {produtos : List (String × Produto)}
    {pedido : Pedido} {nome : String} (qi : Option Int)
    (hfind : dictGet produtos nome = none) :
    criar_pedido_step produtos pedido nome qi =
      (produtos, pedido, AddResult.produtoNaoEncontrado) := by
  simp [criar_pedido_step, hfind]

lemma criar_pedido_step_noparse {produtos : List (String × Produto)}
    {pedido : Pedido} {nome : String} {produto : Produto}
    (hfind : dictGet produtos nome = some produto) :
    criar_pedido_step produtos pedido nome none =
      (produtos, pedido, AddResult.quantidadeInvalida) := by
  simp [criar_pedido_step, hfind]

lemma criar_pedido_step_insuficiente {produtos : List (String × Produto)}
    {pedido : Pedido} {nome : String} {produto : Produto} {q : Int}
    (hfind : dictGet produtos nome = some produto)
    (hgt : produto.estoque < q) :
    criar_pedido_step produtos pedido nome (some q) =
      (produtos, pedido, AddResult.estoqueInsuficiente) := by
  simp [criar_pedido_step, hfind, hgt]

lemma criar_pedido_step_invalida {produtos : List (String × Produto)}
    {pedido : Pedido} {nome : String} {produto : Produto} {q : Int}
    (hfind : dictGet produtos nome = some produto)
    (hq : q ≤ 0) (hle : q ≤ produto.estoque) :
    criar_pedido_step produtos pedido nome (some q) =
      (produtos, pedido, AddResult.quantidadeInvalida) := by
  simp [criar_pedido_step, hfind, not_lt.mpr hle, adicionar_item_err hq]

lemma criar_pedido_step_sucesso {produtos : List (String × Produto)}
    {pedido : Pedido} {nome : String} {produto : Produto} {q : Int}
    (hfind : dictGet produtos nome = some produto)
    (hpos : 0 < q) (hle : q ≤ produto.estoque) :
    criar_pedido_step produtos pedido nome (some q) =
      (dictInsert produtos nome ⟨produto.nome, produto.preco, produto.estoque - q⟩,
       ⟨pedido.cliente, pedido.itens ++ [⟨produto.nome, produto.preco, q⟩]⟩,
       AddResult.ok) := by
  simp [criar_pedido_step, hfind, not_lt.mpr hle, adicionar_item_ok hpos]

/-! ### Preservation of the product invariant -/

lemma produtosOk_dictInsert {d : List (String × Produto)} {k : String}
    {v : Produto} (hd : produtosOk d) (hv : 0 ≤ v.preco ∧ 0 ≤ v.estoque) :
    produtosOk (dictInsert d k v) := by
  intro e he
  rcases mem_dictInsert he with rfl | he
  · exact hv
  · exact hd e he

lemma criar_pedido_step_produtosOk {produtos : List (String × Produto)}
    {pedido : Pedido} {nome : String} {qi : Option Int}
    (h : produtosOk produtos) :
    produtosOk (criar_pedido_step produtos pedido nome qi).1 := by
  cases hfind : dictGet produtos nome with
  | none => rw [criar_pedido_step_notfound qi hfind]; exact h
  | some produto =>
    cases qi with
    | none => rw [criar_pedido_step_noparse hfind]; exact h
    | some q =>
      rcases lt_or_le produto.estoque q with hgt | hle
      · rw [criar_pedido_step_insuficiente hfind hgt]; exact h
      · rcases le_or_lt q 0 with hq | hq
        · rw [criar_pedido_step_invalida hfind hq hle]; exact h
        · rw [criar_pedido_step_sucesso hfind hq hle]
          have hmem := h _ (dictGet_mem hfind)
          have hpre : 0 ≤ produto.preco := hmem.1
          have hest : 0 ≤ produto.estoque := hmem.2
          refine produtosOk_dictInsert h ⟨hpre, ?_⟩
          show (0 : Int) ≤ produto.estoque - q
          omega

lemma criar_pedido_loop_produtosOk :
    ∀ (inputs : List PedidoInput) (produtos : List (String × Produto))
      (pedido : Pedido) (produtos2 : List (String × Produto)) (pedido2 : Pedido),
      produtosOk produtos →
      criar_pedido_loop inputs produtos pedido = some (produtos2, pedido2) →
      produtosOk produtos2 := by
  intro inputs
  induction inputs with
  | nil => intro _ _ _ _ _ h; simp [criar_pedido_loop] at h
  | cons i rest ih =>
    intro produtos pedido produtos2 pedido2 hok h
    cases i with
    | fim =>
      simp only [criar_pedido_loop, Option.some.injEq, Prod.mk.injEq] at h
      exact h.1 ▸ hok
    | item nome q =>
      simp only [criar_pedido_loop] at h
      exact ih _ _ _ _ (criar_pedido_step_produtosOk hok) h

lemma criar_pedido_loop_ne_none :
    ∀ (inputs : List PedidoInput), PedidoInput.fim ∈ inputs →
      ∀ (produtos : List (String × Produto)) (pedido : Pedido),
        criar_pedido_loop inputs produtos pedido ≠ none := by
  intro inputs
  induction inputs with
  | nil => intro hmem; simp at hmem
  | cons i rest ih =>
    intro hmem produtos pedido
    cases i with
    | fim => simp [criar_pedido_loop]
    | item nome q =>
      have hrest : PedidoInput.fim ∈ rest := by
        rcases List.mem_cons.mp hmem with h | h
        · exact absurd h (by simp)
        · exact h
      simp only [criar_pedido_loop]
      exact ih hrest _ _

/-! ### Inversion of `Menu.criar_pedido` -/

lemma criar_pedido_eq_clienteNaoEncontrado {m m2 : Menu} {cpf : String}
    {inputs : List PedidoInput}
    (h : m.criar_pedido cpf inputs = CriarPedidoResult.clienteNaoEncontrado m2) :
    m2 = m ∧ dictGet m.clientes cpf = none := by
  unfold Menu.criar_pedido at h
  split at h
  · next hc =>
    simp only [CriarPedidoResult.clienteNaoEncontrado.injEq] at h
    exact ⟨h.symm, hc⟩
  · next c hc =>
    split at h
    · exact absurd h (by simp)
    · exact absurd h (by simp)

lemma criar_pedido_eq_finalizado {m m2 : Menu} {cpf : String}
    {inputs : List PedidoInput} {total : Rat}
    (h : m.criar_pedido cpf inputs = CriarPedidoResult.finalizado m2 total) :
    ∃ cliente produtos2 pedido2,
      dictGet m.clientes cpf = some cliente ∧
      criar_pedido_loop inputs m.produtos ⟨cliente, []⟩ = some (produtos2, pedido2) ∧
      m2 = ⟨m.clientes, produtos2, m.pedidos ++ [pedido2], m.nextId⟩ ∧
      total = pedido2.calcular_total := by
  unfold Menu.criar_pedido at h
  split at h
  · exact absurd h (by simp)
  · next c hc =>
    split at h
    · exact absurd h (by simp)
    · next produtos2 pedido2 hl =>
      simp only [CriarPedidoResult.finalizado.injEq] at h
      exact ⟨c, produtos2, pedido2, hc, hl, h.1.symm, h.2.symm⟩

/-! ### The step function preserves the product invariant -/

lemma cadastrar_produto_ok_inv {m m2 : Menu} {nome : String} {preco : Rat}
    {estoque : Int}
    (h : m.cadastrar_produto nome preco estoque = Except.ok m2)
    (hok : m.ProdutosValidos) : m2.ProdutosValidos := by
  unfold Menu.cadastrar_produto Produto.mk? at h
  by_cases hneg : preco < 0 ∨ estoque < 0
  · rw [if_pos hneg] at h; simp [Except.map] at h
  · rw [if_neg hneg] at h
    simp [Except.map] at h
    push_neg at hneg
    subst h
    exact produtosOk_dictInsert hok ⟨hneg.1, hneg.2⟩

lemma step_produtosOk {m m2 : Menu} {op : Op} (hok : m.ProdutosValidos)
    (h : m.step op = some m2) : m2.ProdutosValidos := by
  cases op with
  | cadastrarCliente nome cpf email =>
    simp only [Menu.step, Option.some.injEq] at h
    subst h
    exact hok
  | cadastrarProduto nome pI sI =>
    cases pI with
    | none => simp [Menu.step, menu_option2] at h
    | some preco =>
      cases sI with
      | none => simp [Menu.step, menu_option2] at h
      | some estoque =>
        simp only [Menu.step, menu_option2] at h
        cases hcp : m.cadastrar_produto nome preco estoque with
        | error e => rw [hcp] at h; simp [Except.toOption] at h
        | ok m3 =>
          rw [hcp] at h
          simp only [Except.toOption, Option.some.injEq] at h
          exact h ▸ cadastrar_produto_ok_inv hcp hok
  | criarPedido cpf inputs =>
    simp only [Menu.step] at h
    cases hcp : m.criar_pedido cpf inputs with
    | clienteNaoEncontrado m3 =>
      rw [hcp] at h
      simp only [Option.some.injEq] at h
      obtain ⟨rfl, -⟩ := criar_pedido_eq_clienteNaoEncontrado hcp
      exact h ▸ hok
    | finalizado m3 total =>
      rw [hcp] at h
      simp only [Option.some.injEq] at h
      obtain ⟨cliente, produtos2, pedido2, -, hl, rfl, -⟩ :=
        criar_pedido_eq_finalizado hcp
      subst h
      exact criar_pedido_loop_produtosOk _ _ _ _ _ hok hl
    | crash => rw [hcp] at h; simp at h
  | listarPedidos =>
    simp only [Menu.step, Option.some.injEq] at h
    subst h
    exact hok

lemma adicionar_item_ok_inv {pedido ped2 : Pedido} {produto : Produto}
    {q : Int} (h : pedido.adicionar_item produto q = Except.ok ped2) :
    0 < q ∧
    ped2 = ⟨pedido.cliente, pedido.itens ++ [⟨produto.nome, produto.preco, q⟩]⟩ := by
  unfold Pedido.adicionar_item ItemPedido.mk? at h
  by_cases hq : q ≤ 0
  · rw [if_pos hq] at h
    simp [Except.map] at h
  · rw [if_neg hq] at h
    simp only [Except.map, Except.ok.injEq] at h
    exact ⟨by omega, h.symm⟩

lemma cadastrar_produto_ok_shape {m m2 : Menu} {nome : String} {preco : Rat}
    {estoque : Int} (h : m.cadastrar_produto nome preco estoque = Except.ok m2) :
    m2 = ⟨m.clientes, dictInsert m.produtos nome ⟨nome, preco, estoque⟩,
          m.pedidos, m.nextId⟩ := by
  unfold Menu.cadastrar_produto Produto.mk? at h
  by_cases hneg : preco < 0 ∨ estoque < 0
  · rw [if_pos hneg] at h
    simp [Except.map] at h
  · rw [if_neg hneg] at h
    simp only [Except.map, Except.ok.injEq] at h
    exact h.symm

/-! ### The claims -/

/-- C1: for every product present in the registry with current stock `s`
and every quantity `q` with `0 < q ≤ s`, a successful add during an open
order appends exactly one new order line with that product and quantity
`q`, sets the product's stock to `s - q`, and the new line's subtotal is
the exact product `preco * q`. -/
theorem add_line_success_spec (produtos : List (String × Produto))
    (pedido : Pedido) (nome : String) (produto : Produto) (q : Int)
    (hfind : dictGet produtos nome = some produto)
    (hpos : 0 < q) (hle : q ≤ produto.estoque) :
    criar_pedido_step produtos pedido nome (some q) =
      (dictInsert produtos nome ⟨produto.nome, produto.preco, produto.estoque - q⟩,
       ⟨pedido.cliente, pedido.itens ++ [⟨produto.nome, produto.preco, q⟩]⟩,
       AddResult.ok) ∧
    dictGet (criar_pedido_step produtos pedido nome (some q)).1 nome =
      some ⟨produto.nome, produto.preco, produto.estoque - q⟩ ∧
    ItemPedido.calcular_total ⟨produto.nome, produto.preco, q⟩ =
      produto.preco * (q : Rat) := by
  refine ⟨criar_pedido_step_sucesso hfind hpos hle, ?_, rfl⟩
  rw [criar_pedido_step_sucesso hfind hpos hle]
  exact dictGet_dictInsert_self _ _ _

/-- C1 witness: registering "Book" at price 19.90 with stock 10 and
adding 3 of it to an empty order yields one line of quantity 3 and
stock 7. -/
theorem add_line_success_spec_witness :
    (0 : Int) < 3 ∧ (3 : Int) ≤ 10 ∧
    criar_pedido_step [("Book", ⟨"Book", (199 : Rat)/10, 10⟩)]
        ⟨⟨⟨"Ana", "000", "a"⟩, "0"⟩, []⟩ "Book" (some 3) =
      ([("Book", ⟨"Book", (199 : Rat)/10, 7⟩)],
       ⟨⟨⟨"Ana", "000", "a"⟩, "0"⟩, [⟨"Book", (199 : Rat)/10, 3⟩]⟩,
       AddResult.ok) :=
  ⟨by decide, by decide, by
    have h := add_line_success_spec [("Book", ⟨"Book", (199 : Rat)/10, 10⟩)]
      ⟨⟨⟨"Ana", "000", "a"⟩, "0"⟩, []⟩ "Book" ⟨"Book", (199 : Rat)/10, 10⟩ 3
      rfl (by decide) (by decide)
    rw [h.1]
    rfl⟩

/-- C2: every failing add attempt during order assembly (unknown product
name, unparsable quantity line, quantity above the current stock, or a
non-positive quantity) reports the corresponding message and leaves the
order's line list and the whole product map unchanged. -/
theorem add_line_failure_spec (produtos : List (String × Produto))
    (pedido : Pedido) (nome : String) :
    (dictGet produtos nome = none → ∀ qi,
      criar_pedido_step produtos pedido nome qi =
        (produtos, pedido, AddResult.produtoNaoEncontrado)) ∧
    (∀ produto, dictGet produtos nome = some produto →
      criar_pedido_step produtos pedido nome none =
        (produtos, pedido, AddResult.quantidadeInvalida)) ∧
    (∀ produto q, dictGet produtos nome = some produto →
      produto.estoque < q →
      criar_pedido_step produtos pedido nome (some q) =
        (produtos, pedido, AddResult.estoqueInsuficiente)) ∧
    (∀ produto q, dictGet produtos nome = some produto →
      q ≤ 0 → q ≤ produto.estoque →
      criar_pedido_step produtos pedido nome (some q) =
        (produtos, pedido, AddResult.quantidadeInvalida)) :=
  ⟨fun h qi => criar_pedido_step_notfound qi h,
   fun _ h => criar_pedido_step_noparse h,
   fun _ _ h hgt => criar_pedido_step_insuficiente h hgt,
   fun _ _ h hq hle => criar_pedido_step_invalida h hq hle⟩

/-- C2 witness: on a one-product registry ("Book", stock 7), asking for
an unknown product, for 20 of "Book", or for 0 of "Book" each fails with
the respective message and changes nothing. -/
theorem add_line_failure_spec_witness :
    criar_pedido_step [("Book", ⟨"Book", (199 : Rat)/10, 7⟩)]
        ⟨⟨⟨"Ana", "000", "a"⟩, "0"⟩, []⟩ "Pen" (some 1) =
      ([("Book", ⟨"Book", (199 : Rat)/10, 7⟩)],
       ⟨⟨⟨"Ana", "000", "a"⟩, "0"⟩, []⟩, AddResult.produtoNaoEncontrado) ∧
    criar_pedido_step [("Book", ⟨"Book", (199 : Rat)/10, 7⟩)]
        ⟨⟨⟨"Ana", "000", "a"⟩, "0"⟩, []⟩ "Book" (some 20) =
      ([("Book", ⟨"Book", (199 : Rat)/10, 7⟩)],
       ⟨⟨⟨"Ana", "000", "a"⟩, "0"⟩, []⟩, AddResult.estoqueInsuficiente) ∧
    criar_pedido_step [("Book", ⟨"Book", (199 : Rat)/10, 7⟩)]
        ⟨⟨⟨"Ana", "000", "a"⟩, "0"⟩, []⟩ "Book" (some 0) =
      ([("Book", ⟨"Book", (199 : Rat)/10, 7⟩)],
       ⟨⟨⟨"Ana", "000", "a"⟩, "0"⟩, []⟩, AddResult.quantidadeInvalida) :=
  ⟨(add_line_failure_spec [("Book", ⟨"Book", (199 : Rat)/10, 7⟩)]
      ⟨⟨⟨"Ana", "000", "a"⟩, "0"⟩, []⟩ "Pen").1 rfl (some 1),
   (add_line_failure_spec [("Book", ⟨"Book", (199 : Rat)/10, 7⟩)]
      ⟨⟨⟨"Ana", "000", "a"⟩, "0"⟩, []⟩ "Book").2.2.1 _ 20 rfl (by decide),
   (add_line_failure_spec [("Book", ⟨"Book", (199 : Rat)/10, 7⟩)]
      ⟨⟨⟨"Ana", "000", "a"⟩, "0"⟩, []⟩ "Book").2.2.2 _ 0 rfl (by decide)
      (by decide)⟩

/-- C3: every menu state reachable from the initial state through any
sequence of surviving interactions keeps price and stock non-negative
for every stored product; in particular no add can drive a stock below
zero. -/
theorem reachable_produtos_validos (m : Menu) (h : Reachable m) :
    m.ProdutosValidos := by
  induction h with
  | init => intro e he; simp [Menu.init] at he
  | step _ hstep ih => exact step_produtosOk ih hstep

/-- C3 witness: the state reached by registering "Book" (price 2, stock
10) from the initial state satisfies the invariant. -/
theorem reachable_produtos_validos_witness :
    Menu.ProdutosValidos ⟨[], [("Book", ⟨"Book", (2 : Rat), 10⟩)], [], 0⟩ :=
  reachable_produtos_validos _
    (@Reachable.step Menu.init
      ⟨[], [("Book", ⟨"Book", (2 : Rat), 10⟩)], [], 0⟩
      (Op.cadastrarProduto "Book" (some (2 : Rat)) (some 10))
      Reachable.init (by decide))

/-- C4 (counterexample): the claim says a negative price entered at menu
option 2 produces a visible message and no crash; in the source,
`exibir_menu` option "2" calls `Decimal(input())`, `int(input())` and
`cadastrar_produto` with no surrounding `try`, so the `ValueError`
raised by `Produto.__init__` on price -1 is uncaught and the process
terminates: the step has no successor state. -/
theorem menu_option2_negative_price_crashes :
    menu_option2 Menu.init "Livro" (some (-1)) (some 5) = none := by decide

/-- C4 (amended): `CustomerNotFound`, `ProductNotFound`,
`InsufficientStock` and quantity errors arising inside order assembly
(menu option 3) are caught at the offending prompt and the loop
continues — `criar_pedido` never crashes once the input reaches the
sentinel — but at menu option 2 a negative price or stock, or a
non-numeric price or stock line, raises an uncaught exception that
terminates the process. -/
theorem cli_error_handling_amended :
    (∀ (m : Menu) (cpf : String) (inputs : List PedidoInput),
      PedidoInput.fim ∈ inputs →
      m.criar_pedido cpf inputs ≠ CriarPedidoResult.crash) ∧
    (∀ (m : Menu) (nome : String) (preco : Rat) (estoque : Int),
      preco < 0 ∨ estoque < 0 →
      menu_option2 m nome (some preco) (some estoque) = none) ∧
    (∀ (m : Menu) (nome : String) (sI : Option Int),
      menu_option2 m nome none sI = none) ∧
    (∀ (m : Menu) (nome : String) (preco : Rat),
      menu_option2 m nome (some preco) none = none) := by
  refine ⟨?_, ?_, fun _ _ _ => rfl, fun _ _ _ => rfl⟩
  · intro m cpf inputs hmem hcrash
    unfold Menu.criar_pedido at hcrash
    split at hcrash
    · exact absurd hcrash (by simp)
    · split at hcrash
      · next hl => exact criar_pedido_loop_ne_none inputs hmem _ _ hl
      · exact absurd hcrash (by simp)
  · intro m nome preco estoque hneg
    simp only [menu_option2, Menu.cadastrar_produto, Produto.mk?, if_pos hneg,
      Except.map, Except.toOption]

/-- C4 witness: with the sentinel present the order loop returns
normally, while a concrete negative price kills the option-2 step. -/
theorem cli_error_handling_amended_witness :
    Menu.init.criar_pedido "000" [PedidoInput.fim] ≠ CriarPedidoResult.crash ∧
    menu_option2 Menu.init "Livro" (some (-2)) (some 1) = none :=
  ⟨cli_error_handling_amended.1 Menu.init "000" [PedidoInput.fim] (by decide),
   cli_error_handling_amended.2.1 Menu.init "Livro" (-2) 1 (Or.inl (by decide))⟩

/-- C5: construction with a negative price or stock fails with the
`ValueError` and nothing is stored (the CLI step on those inputs has no
successor state at all); with both inputs non-negative, registration
succeeds and the product stored under the given name carries exactly
the given price and stock. -/
theorem cadastrar_produto_spec (m : Menu) (nome : String) (preco : Rat)
    (estoque : Int) :
    ((preco < 0 ∨ estoque < 0) →
      m.cadastrar_produto nome preco estoque =
        Except.error "Preço e estoque devem ser não-negativos." ∧
      m.step (Op.cadastrarProduto nome (some preco) (some estoque)) = none) ∧
    (0 ≤ preco → 0 ≤ estoque →
      m.cadastrar_produto nome preco estoque =
        Except.ok ⟨m.clientes, dictInsert m.produtos nome ⟨nome, preco, estoque⟩,
                   m.pedidos, m.nextId⟩ ∧
      dictGet (dictInsert m.produtos nome ⟨nome, preco, estoque⟩) nome =
        some ⟨nome, preco, estoque⟩) := by
  constructor
  · intro hneg
    constructor
    · simp only [Menu.cadastrar_produto, Produto.mk?, if_pos hneg, Except.map]
    · simp only [Menu.step, menu_option2, Menu.cadastrar_produto, Produto.mk?,
        if_pos hneg, Except.map, Except.toOption]
  · intro h1 h2
    have hneg : ¬(preco < 0 ∨ estoque < 0) := by
      push_neg
      exact ⟨h1, h2⟩
    refine ⟨?_, dictGet_dictInsert_self _ _ _⟩
    simp only [Menu.cadastrar_produto, Produto.mk?, if_neg hneg, Except.map]

/-- C5 witness: price -1 is rejected with no successor state; price 2
and stock 5 are stored exactly. -/
theorem cadastrar_produto_spec_witness :
    (Menu.init.cadastrar_produto "Caneta" (-1) 5 =
      Except.error "Preço e estoque devem ser não-negativos." ∧
     Menu.init.step (Op.cadastrarProduto "Caneta" (some (-1)) (some 5)) = none) ∧
    (Menu.init.cadastrar_produto "Caneta" 2 5 =
      Except.ok (⟨[], [("Caneta", ⟨"Caneta", 2, 5⟩)], [], 0⟩ : Menu) ∧
     dictGet [("Caneta", (⟨"Caneta", (2 : Rat), 5⟩ : Produto))] "Caneta" =
      some (⟨"Caneta", 2, 5⟩ : Produto)) :=
  ⟨(cadastrar_produto_spec Menu.init "Caneta" (-1) 5).1 (Or.inl (by decide)),
   (cadastrar_produto_spec Menu.init "Caneta" 2 5).2 (by decide) (by decide)⟩

/-- C6: starting an order for an absent tax id reports "Cliente não
encontrado" and returns the menu state unchanged, recording no order;
for a present tax id the loop starts from a fresh order bound to that
customer with no lines, and on finalization exactly that assembled
order is appended. -/
theorem criar_pedido_start_spec (m : Menu) (cpf : String)
    (inputs : List PedidoInput) :
    (dictGet m.clientes cpf = none →
      m.criar_pedido cpf inputs = CriarPedidoResult.clienteNaoEncontrado m) ∧
    (∀ cliente, dictGet m.clientes cpf = some cliente →
      ∀ produtos2 pedido2,
        criar_pedido_loop inputs m.produtos ⟨cliente, []⟩ =
          some (produtos2, pedido2) →
        m.criar_pedido cpf inputs =
          CriarPedidoResult.finalizado
            ⟨m.clientes, produtos2, m.pedidos ++ [pedido2], m.nextId⟩
            pedido2.calcular_total) := by
  constructor
  · intro h
    simp only [Menu.criar_pedido, h]
  · intro cliente hc produtos2 pedido2 hl
    simp only [Menu.criar_pedido, hc, hl]

/-- C6 witness: the empty registry knows no customer "000" (state
unchanged, nothing recorded); after registering one, the order started
for them begins with no lines and finalizes as exactly that order. -/
theorem criar_pedido_start_spec_witness :
    Menu.init.criar_pedido "000" [] =
      CriarPedidoResult.clienteNaoEncontrado Menu.init ∧
    (Menu.init.cadastrar_cliente "Ana" "000" "a").criar_pedido "000"
        [PedidoInput.fim] =
      CriarPedidoResult.finalizado
        ⟨[("000", ⟨⟨"Ana", "000", "a"⟩, "0"⟩)], [],
         [⟨⟨⟨"Ana", "000", "a"⟩, "0"⟩, []⟩], 1⟩
        (Pedido.calcular_total ⟨⟨⟨"Ana", "000", "a"⟩, "0"⟩, []⟩) :=
  ⟨(criar_pedido_start_spec Menu.init "000" []).1 rfl,
   (criar_pedido_start_spec (Menu.init.cadastrar_cliente "Ana" "000" "a")
      "000" [PedidoInput.fim]).2 (⟨⟨"Ana", "000", "a"⟩, "0"⟩ : Cliente) rfl
      ([] : List (String × Produto))
      (⟨⟨⟨"Ana", "000", "a"⟩, "0"⟩, []⟩ : Pedido) rfl⟩

/-- C7: the order total is the sum of the line subtotals, it is
invariant under any permutation of the lines, and in particular two
lines added as (p1,q1) then (p2,q2) or in the opposite order both give
the exact decimal total `p1.preco * q1 + p2.preco * q2`. -/
theorem pedido_total_spec :
    (∀ pedido : Pedido,
      pedido.calcular_total = (pedido.itens.map ItemPedido.calcular_total).sum) ∧
    (∀ (cliente : Cliente) (l1 l2 : List ItemPedido), l1.Perm l2 →
      Pedido.calcular_total ⟨cliente, l1⟩ = Pedido.calcular_total ⟨cliente, l2⟩) ∧
    (∀ (cliente : Cliente) (p1 p2 : Produto) (q1 q2 : Int)
        (pedA pedA2 pedB pedB2 : Pedido),
      Pedido.adicionar_item ⟨cliente, []⟩ p1 q1 = Except.ok pedA →
      pedA.adicionar_item p2 q2 = Except.ok pedA2 →
      Pedido.adicionar_item ⟨cliente, []⟩ p2 q2 = Except.ok pedB →
      pedB.adicionar_item p1 q1 = Except.ok pedB2 →
      pedA2.calcular_total = p1.preco * (q1 : Rat) + p2.preco * (q2 : Rat) ∧
      pedB2.calcular_total = pedA2.calcular_total) := by
  refine ⟨fun _ => rfl, ?_, ?_⟩
  · intro cliente l1 l2 hperm
    exact (hperm.map ItemPedido.calcular_total).sum_eq
  · intro cliente p1 p2 q1 q2 pedA pedA2 pedB pedB2 hA1 hA2 hB1 hB2
    obtain ⟨-, rfl⟩ := adicionar_item_ok_inv hA1
    obtain ⟨-, rfl⟩ := adicionar_item_ok_inv hA2
    obtain ⟨-, rfl⟩ := adicionar_item_ok_inv hB1
    obtain ⟨-, rfl⟩ := adicionar_item_ok_inv hB2
    constructor
    · simp [Pedido.calcular_total, ItemPedido.calcular_total]
    · simp [Pedido.calcular_total, ItemPedido.calcular_total]
      ring

/-- C7 witness: lines (price 3, qty 2) and (price 4, qty 1) added in
either order total `3*2 + 4*1`. -/
theorem pedido_total_spec_witness :
    Pedido.calcular_total
        (⟨⟨⟨"Ana", "000", "a"⟩, "0"⟩,
          [⟨"A", 3, 2⟩, ⟨"B", 4, 1⟩]⟩ : Pedido) =
      (3 : Rat) * ((2 : Int) : Rat) + (4 : Rat) * ((1 : Int) : Rat) ∧
    Pedido.calcular_total
        (⟨⟨⟨"Ana", "000", "a"⟩, "0"⟩,
          [⟨"B", 4, 1⟩, ⟨"A", 3, 2⟩]⟩ : Pedido) =
      Pedido.calcular_total
        (⟨⟨⟨"Ana", "000", "a"⟩, "0"⟩,
          [⟨"A", 3, 2⟩, ⟨"B", 4, 1⟩]⟩ : Pedido) :=
  pedido_total_spec.2.2 ⟨⟨"Ana", "000", "a"⟩, "0"⟩
    ⟨"A", 3, 5⟩ ⟨"B", 4, 5⟩ 2 1
    ⟨⟨⟨"Ana", "000", "a"⟩, "0"⟩, [⟨"A", 3, 2⟩]⟩
    ⟨⟨⟨"Ana", "000", "a"⟩, "0"⟩, [⟨"A", 3, 2⟩, ⟨"B", 4, 1⟩]⟩
    ⟨⟨⟨"Ana", "000", "a"⟩, "0"⟩, [⟨"B", 4, 1⟩]⟩
    ⟨⟨⟨"Ana", "000", "a"⟩, "0"⟩, [⟨"B", 4, 1⟩, ⟨"A", 3, 2⟩]⟩
    rfl rfl rfl rfl

/-- C8: the listing shows exactly the recorded orders in insertion
order, and a surviving interaction either leaves the order list
untouched or is a finalizing `criar_pedido` that appends exactly one
order at the end; a started-but-never-finalized order (the process dies
before the sentinel) has no successor state at all, so it never
appears. -/
theorem listar_pedidos_spec :
    (∀ m : Menu, m.listar_pedidos = m.pedidos.map fun pedido =>
      (pedido.cliente.pessoa.nome,
       pedido.itens.map fun item =>
         (item.produtoNome, item.quantidade, item.calcular_total),
       pedido.calcular_total)) ∧
    (∀ (m m2 : Menu) (op : Op), m.step op = some m2 →
      m2.pedidos = m.pedidos ∨
      ∃ cpf inputs total, op = Op.criarPedido cpf inputs ∧
        m.criar_pedido cpf inputs = CriarPedidoResult.finalizado m2 total ∧
        ∃ pedido, m2.pedidos = m.pedidos ++ [pedido]) := by
  refine ⟨fun _ => rfl, ?_⟩
  intro m m2 op h
  cases op with
  | cadastrarCliente nome cpf email =>
    left
    simp only [Menu.step, Option.some.injEq] at h
    subst h
    rfl
  | cadastrarProduto nome pI sI =>
    left
    cases pI with
    | none => simp [Menu.step, menu_option2] at h
    | some preco =>
      cases sI with
      | none => simp [Menu.step, menu_option2] at h
      | some estoque =>
        simp only [Menu.step, menu_option2] at h
        cases hcp : m.cadastrar_produto nome preco estoque with
        | error e => rw [hcp] at h; simp [Except.toOption] at h
        | ok m3 =>
          rw [hcp] at h
          simp only [Except.toOption, Option.some.injEq] at h
          subst h
          rw [cadastrar_produto_ok_shape hcp]
  | criarPedido cpf inputs =>
    simp only [Menu.step] at h
    cases hcp : m.criar_pedido cpf inputs with
    | clienteNaoEncontrado m3 =>
      rw [hcp] at h
      simp only [Option.some.injEq] at h
      subst h
      obtain ⟨rfl, -⟩ := criar_pedido_eq_clienteNaoEncontrado hcp
      exact Or.inl rfl
    | finalizado m3 total =>
      rw [hcp] at h
      simp only [Option.some.injEq] at h
      subst h
      obtain ⟨cliente, produtos2, pedido2, -, -, rfl, -⟩ :=
        criar_pedido_eq_finalizado hcp
      exact Or.inr ⟨cpf, inputs, total, rfl, hcp, pedido2, rfl⟩
    | crash => rw [hcp] at h; simp at h
  | listarPedidos =>
    left
    simp only [Menu.step, Option.some.injEq] at h
    subst h
    rfl

/-- C8 witness: finalizing an empty order for customer "000" appends
exactly that order to the previously empty list. -/
theorem listar_pedidos_spec_witness :
    (⟨[("000", ⟨⟨"Ana", "000", "a"⟩, "0"⟩)], [],
      [⟨⟨⟨"Ana", "000", "a"⟩, "0"⟩, []⟩], 1⟩ : Menu).pedidos =
      (⟨[("000", ⟨⟨"Ana", "000", "a"⟩, "0"⟩)], [], [], 1⟩ : Menu).pedidos ∨
    ∃ cpf inputs total,
      Op.criarPedido "000" [PedidoInput.fim] = Op.criarPedido cpf inputs ∧
      (⟨[("000", ⟨⟨"Ana", "000", "a"⟩, "0"⟩)], [], [], 1⟩ : Menu).criar_pedido
          cpf inputs =
        CriarPedidoResult.finalizado
          ⟨[("000", ⟨⟨"Ana", "000", "a"⟩, "0"⟩)], [],
           [⟨⟨⟨"Ana", "000", "a"⟩, "0"⟩, []⟩], 1⟩ total ∧
      ∃ pedido,
        (⟨[("000", ⟨⟨"Ana", "000", "a"⟩, "0"⟩)], [],
          [⟨⟨⟨"Ana", "000", "a"⟩, "0"⟩, []⟩], 1⟩ : Menu).pedidos =
          (⟨[("000", ⟨⟨"Ana", "000", "a"⟩, "0"⟩)], [], [], 1⟩ : Menu).pedidos
            ++ [pedido] :=
  listar_pedidos_spec.2
    ⟨[("000", ⟨⟨"Ana", "000", "a"⟩, "0"⟩)], [], [], 1⟩
    ⟨[("000", ⟨⟨"Ana", "000", "a"⟩, "0"⟩)], [],
     [⟨⟨⟨"Ana", "000", "a"⟩, "0"⟩, []⟩], 1⟩
    (Op.criarPedido "000" [PedidoInput.fim]) rfl

/-- C9: starting an order for a registered customer and immediately
entering the sentinel finalizes an order with no lines: it is still
appended to the order list and its printed total is 0. -/
theorem pedido_vazio_spec (m : Menu) (cpf : String) (cliente : Cliente)
    (h : dictGet m.clientes cpf = some cliente) :
    m.criar_pedido cpf [PedidoInput.fim] =
      CriarPedidoResult.finalizado
        ⟨m.clientes, m.produtos, m.pedidos ++ [⟨cliente, []⟩], m.nextId⟩ 0 ∧
    Pedido.calcular_total ⟨cliente, []⟩ = 0 := by
  refine ⟨?_, rfl⟩
  simp only [Menu.criar_pedido, h, criar_pedido_loop]
  rfl

/-- C9 witness: on a registry whose only customer is "000", the order
assembled from the single input `fim` is recorded empty with total 0. -/
theorem pedido_vazio_spec_witness :
    (⟨[("000", ⟨⟨"Ana", "000", "a"⟩, "0"⟩)], [], [], 1⟩ : Menu).criar_pedido
        "000" [PedidoInput.fim] =
      CriarPedidoResult.finalizado
        ⟨[("000", ⟨⟨"Ana", "000", "a"⟩, "0"⟩)], [],
         [⟨⟨⟨"Ana", "000", "a"⟩, "0"⟩, []⟩], 1⟩ 0 ∧
    Pedido.calcular_total ⟨⟨⟨"Ana", "000", "a"⟩, "0"⟩, []⟩ = 0 :=
  pedido_vazio_spec ⟨[("000", ⟨⟨"Ana", "000", "a"⟩, "0"⟩)], [], [], 1⟩
    "000" ⟨⟨"Ana", "000", "a"⟩, "0"⟩ rfl

/-- C10: adding the same product twice in one open order (each quantity
valid against the stock current at its own add) appends two separate
lines — they are never merged — and the stock after both adds is the
initial stock minus `q1 + q2`. -/
theorem add_same_product_twice_spec (produtos : List (String × Produto))
    (pedido : Pedido) (nome : String) (produto : Produto) (q1 q2 : Int)
    (hfind : dictGet produtos nome = some produto)
    (h1 : 0 < q1) (hle1 : q1 ≤ produto.estoque)
    (h2 : 0 < q2) (hle2 : q2 ≤ produto.estoque - q1) :
    (criar_pedido_step
        (criar_pedido_step produtos pedido nome (some q1)).1
        (criar_pedido_step produtos pedido nome (some q1)).2.1
        nome (some q2)).2.1.itens =
      pedido.itens ++ [⟨produto.nome, produto.preco, q1⟩,
                       ⟨produto.nome, produto.preco, q2⟩] ∧
    dictGet (criar_pedido_step
        (criar_pedido_step produtos pedido nome (some q1)).1
        (criar_pedido_step produtos pedido nome (some q1)).2.1
        nome (some q2)).1 nome =
      some ⟨produto.nome, produto.preco, produto.estoque - q1 - q2⟩ ∧
    (criar_pedido_step
        (criar_pedido_step produtos pedido nome (some q1)).1
        (criar_pedido_step produtos pedido nome (some q1)).2.1
        nome (some q2)).2.2 = AddResult.ok := by
  have s1 := @criar_pedido_step_sucesso produtos pedido nome produto q1
    hfind h1 hle1
  have hfind2 : dictGet (criar_pedido_step produtos pedido nome (some q1)).1
      nome = some ⟨produto.nome, produto.preco, produto.estoque - q1⟩ := by
    rw [s1]
    exact dictGet_dictInsert_self _ _ _
  have hle2' : q2 ≤ (⟨produto.nome, produto.preco, produto.estoque - q1⟩ :
      Produto).estoque := hle2
  have s2 := @criar_pedido_step_sucesso
    (criar_pedido_step produtos pedido nome (some q1)).1
    (criar_pedido_step produtos pedido nome (some q1)).2.1
    nome ⟨produto.nome, produto.preco, produto.estoque - q1⟩ q2
    hfind2 h2 hle2'
  refine ⟨?_, ?_, ?_⟩
  · rw [s2, s1]
    simp
  · rw [s2]
    exact dictGet_dictInsert_self _ _ _
  · rw [s2]

/-- C10 witness: adding 3 then 4 of "Book" (stock 10) yields two lines
and stock 3. -/
theorem add_same_product_twice_spec_witness :
    (0 : Int) < 3 ∧ (0 : Int) < 4 ∧ (4 : Int) ≤ 10 - 3 ∧
    (criar_pedido_step
        (criar_pedido_step [("Book", ⟨"Book", 2, 10⟩)]
          ⟨⟨⟨"Ana", "000", "a"⟩, "0"⟩, []⟩ "Book" (some 3)).1
        (criar_pedido_step [("Book", ⟨"Book", 2, 10⟩)]
          ⟨⟨⟨"Ana", "000", "a"⟩, "0"⟩, []⟩ "Book" (some 3)).2.1
        "Book" (some 4)).2.1.itens =
      [⟨"Book", 2, 3⟩, ⟨"Book", 2, 4⟩] ∧
    dictGet (criar_pedido_step
        (criar_pedido_step [("Book", ⟨"Book", 2, 10⟩)]
          ⟨⟨⟨"Ana", "000", "a"⟩, "0"⟩, []⟩ "Book" (some 3)).1
        (criar_pedido_step [("Book", ⟨"Book", 2, 10⟩)]
          ⟨⟨⟨"Ana", "000", "a"⟩, "0"⟩, []⟩ "Book" (some 3)).2.1
        "Book" (some 4)).1 "Book" =
      some ⟨"Book", 2, 3⟩ := by
  have h := add_same_product_twice_spec [("Book", ⟨"Book", 2, 10⟩)]
    ⟨⟨⟨"Ana", "000", "a"⟩, "0"⟩, []⟩ "Book" ⟨"Book", 2, 10⟩ 3 4
    rfl (by decide) (by decide) (by decide) (by decide)
  exact ⟨by decide, by decide, by decide, h.1, h.2.1⟩

end Ecommerce
